import Mathlib

namespace G3Console

/-! Shallow embedding of the g3-console web client's navigation and
refresh engine (the `router` object of the console web client) and of its
request facade (`api.js`).  JavaScript integer counters are modelled as
`Int`, the fractional `duration_secs` as `Rat`; a JSON field that may be
absent is an `Option`; `x || 0` on such a field is `Option.getD 0`.
The single-threaded event-loop semantics is a step function on an explicit
router state: an `async` render procedure is split at its `await` points
into a start segment (run synchronously by the invoking event) and a
completion segment (run when the recorded pending fetch resolves). -/

/-- Stats record of an instance summary; every field may be absent in the
JSON payload. -/
structure Stats where
  total_tokens : Option Int
  tool_calls : Option Int
  errors : Option Int
  duration_secs : Option Rat
  deriving DecidableEq, Repr

/-- Instance record as consumed by the render procedures. -/
structure Instance where
  id : String
  workspace : String
  status : String
  stats : Option Stats
  latest_message : Option String
  git_status : Option String
  project_files : List String
  deriving DecidableEq, Repr

/-- One chat message of a log bundle. -/
structure ChatMsg where
  content : String
  agent : String
  deriving DecidableEq, Repr

/-- Log bundle returned by `api.getInstanceLogs`; the record itself or
either list may be absent. -/
structure Logs where
  tool_calls : Option (List String)
  messages : Option (List ChatMsg)
  deriving DecidableEq, Repr

/-- JavaScript `x || 0` on a possibly absent integer field. -/
def jsOrZeroI (o : Option Int) : Int := o.getD 0

/-- JavaScript `x || 0` on a possibly absent numeric field. -/
def jsOrZeroQ (o : Option Rat) : Rat := o.getD 0

/-- JavaScript `Math.round`: the floor of `x + 1/2`. -/
def jsRound (q : Rat) : Int := Int.floor (q + 1/2)

/-- Digit grouping performed by `Number.prototype.toLocaleString` in an
en-US locale: a comma every three digits.  Input and output run
least-significant digit first. -/
def groupDigits : List Char → List Char
  | a :: b :: c :: d :: rest => a :: b :: c :: ',' :: groupDigits (d :: rest)
  | l => l

/-- `Number.prototype.toLocaleString` on an integer, en-US locale. -/
def toLocaleString (n : Int) : String :=
  (if n < 0 then "-" else "") ++
    String.mk (groupDigits (toString n.natAbs).data.reverse).reverse

/-- JavaScript `a || b` where `a` is a possibly absent string field
(absent and the empty string are both falsy). -/
def jsOrS (a : Option String) (b : String) : String :=
  match a with
  | some s => if s = "" then b else s
  | none => b

/-- `String.prototype.split` with a one-character separator, on the
character list: `''.split(sep)` is `['']`, and every separator occurrence
opens a new chunk. -/
def splitChars (sep : Char) : List Char → List (List Char)
  | [] => [[]]
  | c :: rest =>
      let r := splitChars sep rest
      if c = sep then [] :: r
      else
        match r with
        | h :: t => (c :: h) :: t
        | [] => [[c]]

/-- JavaScript `s.split(sep)` for a one-character separator. -/
def jsSplit (sep : Char) (s : String) : List String :=
  (splitChars sep s.data).map String.mk

/-- JavaScript `s.startsWith(pre)`. -/
def jsStartsWith (s : String) (pre : String) : Bool :=
  pre.data.isPrefixOf s.data

/-- Argument record the home render hands to `components.instancePanel`:
the instance, the stats object after the `instance.stats || {...}`
substitution, and the latest-message preview. -/
structure Panel where
  inst : Instance
  stats : Stats
  latest : Option String
  deriving DecidableEq, Repr

/-- The literal default object
`{ total_tokens: 0, tool_calls: 0, errors: 0, duration_secs: 0 }` from the
home render. -/
def defaultStats : Stats := ⟨some 0, some 0, some 0, some 0⟩

/-- The per-instance work of the home render's loop body. -/
def mkPanel (inst : Instance) : Panel :=
  ⟨inst, inst.stats.getD defaultStats, inst.latest_message⟩

/-- Data interpolated into the detail-view markup by `renderDetail`:
the stat cards (tokens via `toLocaleString`, duration via
`Math.round(duration_secs / 60)`), git status, project files, and the
tool-call and message lists (`none` when the placeholder text is shown
instead, per the `logs && logs.xs && logs.xs.length > 0` checks). -/
structure DetailView where
  workspace : String
  status : String
  tokensDisplay : String
  toolCallsVal : Int
  errorsVal : Int
  durationMinutes : Int
  git_status : Option String
  project_files : List String
  shownToolCalls : Option (List String)
  shownMessages : Option (List ChatMsg)
  deriving DecidableEq, Repr

/-- Builds the detail view's interpolated data from the two fetch
results, mirroring the template literals of `renderDetail`. -/
def mkDetailView (inst : Instance) (logs : Logs) : DetailView where
  workspace := inst.workspace
  status := inst.status
  tokensDisplay := toLocaleString (jsOrZeroI (inst.stats.bind Stats.total_tokens))
  toolCallsVal := jsOrZeroI (inst.stats.bind Stats.tool_calls)
  errorsVal := jsOrZeroI (inst.stats.bind Stats.errors)
  durationMinutes := jsRound (jsOrZeroQ (inst.stats.bind Stats.duration_secs) / 60)
  git_status := inst.git_status
  project_files := inst.project_files
  shownToolCalls :=
    match logs.tool_calls with
    | some l => if 0 < l.length then some l else none
    | none => none
  shownMessages :=
    match logs.messages with
    | some l => if 0 < l.length then some l else none
    | none => none

/-- Contents of the single mount point (`#page-container`).  Fragment
builders (`components.*`) are external collaborators, so a display state
records which builder was invoked and with what data. -/
inductive Display where
  | blank
  | spinner (msg : String)
  | errorMsg (msg : String)
  | emptyState (msg : String)
  | homeList (panels : List Panel)
  | detailView (v : DetailView)
  deriving DecidableEq, Repr

/-- Which render procedure a scheduled refresh callback will invoke. -/
inductive TimerKind where
  | home
  | detail (instId : String)
  deriving DecidableEq, Repr

/-- A live (armed, not yet fired, not yet cleared) `setTimeout` callback. -/
structure Timer where
  tid : Nat
  kind : TimerKind
  deriving DecidableEq, Repr

/-- An outstanding fetch: a suspended render procedure waiting at its
`await`.  A detail render's two awaited reads touch no shared state in
between, so they are recorded as one pending fetch. -/
inductive PendingFetch where
  | homeFetch (fid : Nat)
  | detailFetch (fid : Nat) (instId : String)
  deriving DecidableEq, Repr

/-- The router's fields (from the `router` object literal), the mount
point, and the event-loop bookkeeping: live timers, outstanding fetches,
and a source of fresh ids (browser timer ids start at 1). -/
structure RouterState where
  currentRoute : String
  refreshTimeout : Option Nat
  detailRefreshTimeout : Option Nat
  currentInstanceId : Option String
  renderInProgress : Bool
  display : Display
  liveTimers : List Timer
  pending : List PendingFetch
  nextId : Nat
  deriving DecidableEq, Repr

/-- The router object as initialised by its literal. -/
def initState : RouterState :=
  { currentRoute := "/", refreshTimeout := none, detailRefreshTimeout := none,
    currentInstanceId := none, renderInProgress := false, display := .blank,
    liveTimers := [], pending := [], nextId := 1 }

/-- `router.cancelRefreshes`: clears whichever timers the two handle
fields reference and nulls the fields.  Only the referenced timers die; a
live timer whose id is no longer stored in a field survives. -/
def cancelRefreshes (s : RouterState) : RouterState :=
  { s with
    liveTimers := s.liveTimers.filter fun t =>
      !decide (s.refreshTimeout = some t.tid) &&
      !decide (s.detailRefreshTimeout = some t.tid),
    refreshTimeout := none,
    detailRefreshTimeout := none }

/-- Start segment of `router.renderHome`, up to `await api.getInstances()`:
the re-entrancy guard, the flag, the spinner, and the fetch. -/
def renderHomeStart (s : RouterState) : RouterState :=
  if s.renderInProgress then s
  else
    { s with renderInProgress := true,
             display := .spinner "Loading instances...",
             pending := s.pending ++ [.homeFetch s.nextId],
             nextId := s.nextId + 1 }

/-- `this.refreshTimeout = setTimeout(() => this.renderHome(container), 5000)`:
a fresh home timer is armed and the handle field is overwritten. -/
def armHomeTimer (s : RouterState) : RouterState :=
  { s with liveTimers := s.liveTimers ++ [⟨s.nextId, .home⟩],
           refreshTimeout := some s.nextId,
           nextId := s.nextId + 1 }

/-- The home render's step 6: `Schedule next refresh only if still on
home route`. -/
def armIfHome (s1 : RouterState) : RouterState :=
  if s1.currentRoute = "/" ∨ s1.currentRoute = "" then armHomeTimer s1 else s1

/-- Completion segment of `router.renderHome`, resumed when the list
fetch settles: the route-match abort, the empty-state/list rendering, the
conditional re-arm, the `catch`, and the `finally` clearing the flag. -/
def renderHomeComplete (res : Except String (List Instance))
    (s : RouterState) : RouterState :=
  match res with
  | .error e =>
      { s with display := .errorMsg ("Failed to load instances: " ++ e),
               renderInProgress := false }
  | .ok instances =>
      if s.currentRoute ≠ "/" ∧ s.currentRoute ≠ "" then
        { s with renderInProgress := false }
      else if instances.length = 0 then
        { armIfHome
            { s with display :=
                .emptyState "No running instances. Click \"+ New Run\" to start one." } with
          renderInProgress := false }
      else
        { armIfHome
            { s with display := .homeList (instances.map mkPanel) } with
          renderInProgress := false }

/-- Start segment of `router.renderDetail`, up to its first `await`:
records the instance id, shows the spinner, issues the reads. -/
def renderDetailStart (instId : String) (s : RouterState) : RouterState :=
  { s with currentInstanceId := some instId,
           display := .spinner "Loading instance details...",
           pending := s.pending ++ [.detailFetch s.nextId instId],
           nextId := s.nextId + 1 }

/-- `this.detailRefreshTimeout = setTimeout(..., 3000)`: a fresh detail
timer is armed and the handle field is overwritten (without clearing the
previously referenced timer). -/
def armDetailTimer (instId : String) (s : RouterState) : RouterState :=
  { s with liveTimers := s.liveTimers ++ [⟨s.nextId, .detail instId⟩],
           detailRefreshTimeout := some s.nextId,
           nextId := s.nextId + 1 }

/-- The detail render's last step: `Schedule next refresh only if still
on this detail route`. -/
def armIfDetail (instId : String) (s1 : RouterState) : RouterState :=
  if s1.currentRoute = "/instance/" ++ instId then armDetailTimer instId s1 else s1

/-- Completion segment of `router.renderDetail`: the route-match abort,
the view rendering, the conditional re-arm, and the `catch`. -/
def renderDetailComplete (instId : String)
    (res : Except String (Instance × Logs)) (s : RouterState) : RouterState :=
  match res with
  | .error e =>
      { s with display := .errorMsg ("Failed to load instance: " ++ e) }
  | .ok (inst, logs) =>
      if s.currentRoute ≠ "/instance/" ++ instId then s
      else
        armIfDetail instId { s with display := .detailView (mkDetailView inst logs) }

/-- `router.handleRoute`: records the new route, cancels the referenced
timers, and dispatches on the path shape (`'/' || ''` to home,
`startsWith('/instance/')` with `path.split('/')[2]` to detail, anything
else to the not-found message). -/
def handleRoute (path : String) (s : RouterState) : RouterState :=
  let s1 := cancelRefreshes { s with currentRoute := path }
  if path = "/" ∨ path = "" then renderHomeStart s1
  else if jsStartsWith path "/instance/" then
    renderDetailStart ((jsSplit '/' path).getD 2 "") s1
  else { s1 with display := .errorMsg "Page not found" }

/-- `router.navigate`: cancel the referenced timers, push the history
entry (not observable here), and handle the route. -/
def navigate (path : String) (s : RouterState) : RouterState :=
  handleRoute path (cancelRefreshes s)

/-- A live timer fires: it is consumed and its callback invokes the
matching render procedure's start segment. -/
def fireTimer (tid : Nat) (s : RouterState) : RouterState :=
  match s.liveTimers.find? (fun t => t.tid == tid) with
  | none => s
  | some t =>
      let s1 := { s with liveTimers := s.liveTimers.filter fun u => !(u.tid == tid) }
      match t.kind with
      | .home => renderHomeStart s1
      | .detail instId => renderDetailStart instId s1

/-- An outstanding home list fetch settles: the pending record is
consumed and the completion segment runs. -/
def resolveHome (fid : Nat) (res : Except String (List Instance))
    (s : RouterState) : RouterState :=
  if PendingFetch.homeFetch fid ∈ s.pending then
    renderHomeComplete res
      { s with pending := s.pending.filter fun p => !decide (p = PendingFetch.homeFetch fid) }
  else s

/-- Recogniser for the outstanding detail fetch with a given id. -/
def pendingDetail (fid : Nat) : PendingFetch → Bool
  | .detailFetch f _ => f == fid
  | _ => false

/-- An outstanding detail fetch settles: the pending record is consumed
and the completion segment runs for the id it was issued with. -/
def resolveDetail (fid : Nat) (res : Except String (Instance × Logs))
    (s : RouterState) : RouterState :=
  match s.pending.find? (pendingDetail fid) with
  | some (.detailFetch _ instId) =>
      renderDetailComplete instId res
        { s with pending := s.pending.filter fun p => !pendingDetail fid p }
  | _ => s

/-- External events of the event loop: a link-click navigation, a
popstate (or the delayed initial route), a timer firing, and the
settlement of an outstanding fetch with the environment-chosen outcome. -/
inductive Event where
  | nav (path : String)
  | pop (path : String)
  | fire (tid : Nat)
  | homeResult (fid : Nat) (res : Except String (List Instance))
  | detailResult (fid : Nat) (res : Except String (Instance × Logs))

/-- One event-loop turn. -/
def step (s : RouterState) : Event → RouterState
  | .nav p => navigate p s
  | .pop p => handleRoute p s
  | .fire tid => fireTimer tid s
  | .homeResult fid res => resolveHome fid res s
  | .detailResult fid res => resolveDetail fid res s

/-- The state reached from a fresh page load after a sequence of events. -/
def run (evs : List Event) : RouterState := evs.foldl step initState

/-- Recogniser for an outstanding home list fetch. -/
def isHomeFetch : PendingFetch → Bool
  | .homeFetch _ => true
  | _ => false

/-- Number of home list fetches in flight. -/
def homeFetchCount (s : RouterState) : Nat := s.pending.countP isHomeFetch

/-- Recogniser for a home refresh timer. -/
def isHomeTimer (t : Timer) : Bool :=
  match t.kind with
  | .home => true
  | _ => false

/-- The live home refresh timers. -/
def homeTimers (s : RouterState) : List Timer := s.liveTimers.filter isHomeTimer

/-- Number of live detail refresh timers. -/
def detailTimerCount (s : RouterState) : Nat :=
  s.liveTimers.countP fun t => !isHomeTimer t

/-- Structured error body a failed launch response may carry. -/
structure ErrorBody where
  message : Option String
  error : Option String
  deriving DecidableEq, Repr

/-- Transport-level response to `POST /api/instances/launch`:
`errorBody` is the JSON parse of the body (`none` when parsing rejects),
`body` the success payload. -/
structure LaunchResponse where
  ok : Bool
  status : Nat
  errorBody : Option ErrorBody
  body : String
  deriving DecidableEq, Repr

/-- The `try` block of `api.launchInstance`'s failure branch: read the
error body and `throw new Error(errorData.message || errorData.error ||
'Failed to launch instance')`.  Every path of the block throws (result
type `Empty`): either `response.json()` rejects, or the constructed
`Error` is thrown from inside the same `try`. -/
def launchTry (b : Option ErrorBody) : Except String Empty :=
  match b with
  | none => Except.error "Unexpected end of JSON input"
  | some eb => Except.error (jsOrS eb.message (jsOrS eb.error "Failed to launch instance"))

/-- Embeds `api.launchInstance` (crates/g3-console/web/js/api.js).  On a
non-ok response the `catch` clause also catches the `throw` issued inside
its own `try` block, so whatever the error body held, the surfaced error
carries the generic status-code message. -/
def launchInstance (resp : LaunchResponse) : Except String String :=
  if resp.ok then Except.ok resp.body
  else
    match launchTry resp.errorBody with
    | Except.ok e => e.elim
    | Except.error _ =>
        Except.error ("Failed to launch instance (" ++ toString resp.status ++ ")")

/-- Router invariant: the in-progress flag counts the home fetches in
flight; at most one home timer is live; every live home timer is the one
the handle field references; while a home render is in progress no home
timer is live. -/
def Inv (s : RouterState) : Prop :=
  homeFetchCount s = (if s.renderInProgress then 1 else 0) ∧
  (homeTimers s).length ≤ 1 ∧
  (∀ t ∈ s.liveTimers, t.kind = TimerKind.home → s.refreshTimeout = some t.tid) ∧
  (s.renderInProgress = true → homeTimers s = [])

/-- Sample instance record (workspace `w1`). -/
def instW1 : Instance := ⟨"a", "w1", "running", none, none, none, []⟩

/-- Sample instance record (workspace `w2`). -/
def instW2 : Instance := ⟨"a", "w2", "running", none, none, none, []⟩

/-- Sample log bundle with both lists absent. -/
def logsEmpty : Logs := ⟨none, none⟩

/-- Two navigations to the same detail path in a row: the second issues a
fresh pair of reads while the first pair is still outstanding. -/
def abaPre : List Event := [Event.nav "/instance/a", Event.nav "/instance/a"]

/-- The double-navigation trace continued by the two settlements in
reverse issue order: the second navigation's reads settle first, then the
first navigation's stale reads. -/
def abaTrace : List Event :=
  abaPre ++ [Event.detailResult 2 (Except.ok (instW2, logsEmpty)),
             Event.detailResult 1 (Except.ok (instW1, logsEmpty))]

/-- Stats record whose `total_tokens` field is absent. -/
def statsNoTokens : Stats := ⟨none, some 1, some 0, some 0⟩

/-- Instance whose stats record is present but lacks `total_tokens`. -/
def instNoTokens : Instance := ⟨"a", "w", "running", some statsNoTokens, none, none, []⟩

/-- Instance with a 125-second duration and 1234567 consumed tokens. -/
def instC9 : Instance :=
  ⟨"a", "w", "running", some ⟨some 1234567, none, none, some 125⟩, none, none, []⟩

/-- Instance whose stats record is absent altogether. -/
def instNoStats : Instance := ⟨"a", "w", "running", none, none, none, []⟩

theorem isHomeTimer_iff (t : Timer) : isHomeTimer t = true ↔ t.kind = TimerKind.home := by
  cases t with
  | mk tid kind => cases kind <;> simp [isHomeTimer]

theorem mem_homeTimers {s : RouterState} {t : Timer} :
    t ∈ homeTimers s ↔ t ∈ s.liveTimers ∧ t.kind = TimerKind.home := by
  simp [homeTimers, List.mem_filter, isHomeTimer_iff]

theorem countP_remove_eq_zero {α : Type} [DecidableEq α] (p : α → Bool) (x : α) :
    ∀ (l : List α), x ∈ l → p x = true → l.countP p ≤ 1 →
      (l.filter fun a => !decide (a = x)).countP p = 0 := by
  intro l
  induction l with
  | nil => intro hx; cases hx
  | cons b l ih =>
    intro hx hpx h1
    by_cases hbx : b = x
    · subst hbx
      have hdrop : (List.filter (fun a => !decide (a = b)) (b :: l))
          = l.filter fun a => !decide (a = b) := by
        simp [List.filter_cons]
      rw [hdrop]
      have hl0 : l.countP p = 0 := by
        have := h1
        simp only [List.countP_cons, hpx, if_pos] at this
        omega
      have hle : (l.filter fun a => !decide (a = b)).countP p ≤ l.countP p := by
        rw [List.countP_filter]
        exact List.countP_mono_left fun a _ hp => by
          simp only [Bool.and_eq_true] at hp; exact hp.1
      omega
    · have hkeep : (List.filter (fun a => !decide (a = x)) (b :: l))
          = b :: l.filter fun a => !decide (a = x) := by
        simp [List.filter_cons, hbx]
      have hxl : x ∈ l := by
        cases hx with
        | head => exact absurd rfl hbx
        | tail _ h => exact h
      rw [hkeep, List.countP_cons]
      cases hpb : p b with
      | false =>
        have h1' : l.countP p ≤ 1 := by
          rw [List.countP_cons, hpb] at h1; omega
        rw [ih hxl hpx h1']
        simp [hpb]
      | true =>
        exfalso
        have hpos : 0 < l.countP p := List.countP_pos_iff.2 ⟨x, hxl, hpx⟩
        simp only [List.countP_cons, hpb, if_pos] at h1
        omega

theorem inv_init : Inv initState := by
  refine ⟨rfl, ?_, ?_, ?_⟩
  · simp [homeTimers, initState]
  · intro t ht; cases ht
  · intro h; cases h

theorem inv_cancel (s : RouterState) (h : Inv s) :
    Inv (cancelRefreshes s) ∧ homeTimers (cancelRefreshes s) = [] := by
  obtain ⟨h1, h2, h3, h4⟩ := h
  have hT : homeTimers (cancelRefreshes s) = [] := by
    simp only [homeTimers, cancelRefreshes, List.filter_filter]
    rw [List.filter_eq_nil_iff]
    intro t ht
    simp only [Bool.and_eq_true, Bool.not_eq_true', decide_eq_false_iff_not, not_and]
    intro hHome hr _
    exact hr (h3 t ht ((isHomeTimer_iff t).1 hHome))
  refine ⟨⟨h1, ?_, ?_, fun _ => hT⟩, hT⟩
  · rw [hT]; simp
  · intro t ht hk
    exfalso
    have : t ∈ homeTimers (cancelRefreshes s) := mem_homeTimers.2 ⟨ht, hk⟩
    rw [hT] at this
    cases this

theorem inv_homeStart (s : RouterState) (h : Inv s)
    (hpre : homeTimers s = [] ∨ s.renderInProgress = true) : Inv (renderHomeStart s) := by
  obtain ⟨h1, h2, h3, h4⟩ := h
  unfold renderHomeStart
  by_cases hf : s.renderInProgress = true
  · rw [if_pos hf]; exact ⟨h1, h2, h3, h4⟩
  · rw [if_neg hf]
    have hfb : s.renderInProgress = false := by
      cases hflag : s.renderInProgress
      · rfl
      · exact absurd hflag hf
    have hT : homeTimers s = [] := by
      cases hpre with
      | inl h => exact h
      | inr h => exact absurd h hf
    refine ⟨?_, h2, h3, fun _ => hT⟩
    simp only [homeFetchCount, List.countP_append, homeFetchCount] at h1 ⊢
    rw [h1, hfb]
    simp [isHomeFetch, List.countP_cons]

theorem inv_detailStart (instId : String) (s : RouterState) (h : Inv s) :
    Inv (renderDetailStart instId s) := by
  obtain ⟨h1, h2, h3, h4⟩ := h
  refine ⟨?_, h2, h3, h4⟩
  simp only [homeFetchCount, renderDetailStart, List.countP_append] at h1 ⊢
  rw [h1]
  simp [isHomeFetch, List.countP_cons]

theorem inv_unarmed (s : RouterState) (d : Display)
    (hc : homeFetchCount s = 0)
    (hmemT : ∀ t ∈ s.liveTimers, t.kind = TimerKind.home → False) :
    Inv { s with display := d, renderInProgress := false } := by
  refine ⟨hc, ?_, ?_, ?_⟩
  · show (s.liveTimers.filter isHomeTimer).length ≤ 1
    rw [List.filter_eq_nil_iff.2 fun t ht hk => hmemT t ht ((isHomeTimer_iff t).1 hk)]
    simp
  · intro t ht hk
    exact (hmemT t ht hk).elim
  · intro hfl
    exact Bool.noConfusion hfl

theorem inv_armed (s : RouterState) (d : Display)
    (hc : homeFetchCount s = 0)
    (hmemT : ∀ t ∈ s.liveTimers, t.kind = TimerKind.home → False) :
    Inv { armHomeTimer { s with display := d } with renderInProgress := false } := by
  refine ⟨hc, ?_, ?_, ?_⟩
  · show ((s.liveTimers ++ [(⟨s.nextId, TimerKind.home⟩ : Timer)]).filter isHomeTimer).length ≤ 1
    rw [List.filter_append,
      List.filter_eq_nil_iff.2 fun t ht hk => hmemT t ht ((isHomeTimer_iff t).1 hk)]
    simp [isHomeTimer]
  · intro t ht hk
    show some s.nextId = some t.tid
    rcases List.mem_append.mp ht with hl | hr
    · exact (hmemT t hl hk).elim
    · rw [List.mem_singleton.mp hr]
  · intro hfl
    exact Bool.noConfusion hfl

theorem inv_homeComplete (res : Except String (List Instance)) (s : RouterState)
    (hc : homeFetchCount s = 0) (hT : homeTimers s = []) :
    Inv (renderHomeComplete res s) := by
  have hmemT : ∀ t ∈ s.liveTimers, t.kind = TimerKind.home → False := by
    intro t ht hk
    have hmem : t ∈ homeTimers s := mem_homeTimers.2 ⟨ht, hk⟩
    rw [hT] at hmem
    cases hmem
  cases res with
  | error e => exact inv_unarmed s _ hc hmemT
  | ok instances =>
    simp only [renderHomeComplete]
    by_cases hroute : s.currentRoute ≠ "/" ∧ s.currentRoute ≠ ""
    · rw [if_pos hroute]
      exact inv_unarmed s s.display hc hmemT
    · rw [if_neg hroute]
      have hr : s.currentRoute = "/" ∨ s.currentRoute = "" := by
        rcases not_and_or.mp hroute with hx | hx
        · exact Or.inl (not_not.mp hx)
        · exact Or.inr (not_not.mp hx)
      by_cases hlen : instances.length = 0
      · rw [if_pos hlen]
        simp only [armIfHome]
        rw [if_pos hr]
        exact inv_armed s _ hc hmemT
      · rw [if_neg hlen]
        simp only [armIfHome]
        rw [if_pos hr]
        exact inv_armed s _ hc hmemT

theorem inv_display (s : RouterState) (d : Display) (h : Inv s) :
    Inv { s with display := d } := h

theorem isHomeTimer_home_mk (n : Nat) : isHomeTimer ⟨n, TimerKind.home⟩ = true := rfl

theorem isHomeTimer_detail_mk (n : Nat) (instId : String) :
    isHomeTimer ⟨n, TimerKind.detail instId⟩ = false := rfl

theorem inv_detailComplete (instId : String) (res : Except String (Instance × Logs))
    (s : RouterState) (h : Inv s) : Inv (renderDetailComplete instId res s) := by
  have h1 := h.1
  have h2 := h.2.1
  have h3 := h.2.2.1
  have h4 := h.2.2.2
  cases res with
  | error e => exact inv_display s _ h
  | ok pr =>
    obtain ⟨inst, logs⟩ := pr
    simp only [renderDetailComplete]
    by_cases hroute : s.currentRoute ≠ "/instance/" ++ instId
    · rw [if_pos hroute]
      exact h
    · rw [if_neg hroute]
      simp only [armIfDetail]
      by_cases harm : s.currentRoute = "/instance/" ++ instId
      · rw [if_pos harm]
        have hfilt : (s.liveTimers ++ [(⟨s.nextId, TimerKind.detail instId⟩ : Timer)]).filter isHomeTimer
            = s.liveTimers.filter isHomeTimer := by
          rw [List.filter_append]
          simp [List.filter_cons, isHomeTimer_detail_mk]
        refine ⟨h1, ?_, ?_, ?_⟩
        · show ((s.liveTimers ++ [(⟨s.nextId, TimerKind.detail instId⟩ : Timer)]).filter isHomeTimer).length ≤ 1
          rw [hfilt]
          exact h2
        · intro t ht hk
          show s.refreshTimeout = some t.tid
          rcases List.mem_append.mp ht with hl | hr2
          · exact h3 t hl hk
          · rw [List.mem_singleton.mp hr2] at hk
            exact TimerKind.noConfusion hk
        · intro hfl
          show (s.liveTimers ++ [(⟨s.nextId, TimerKind.detail instId⟩ : Timer)]).filter isHomeTimer = []
          rw [hfilt]
          exact h4 hfl
      · rw [if_neg harm]
        exact h

theorem inv_resolveHome (fid : Nat) (res : Except String (List Instance))
    (s : RouterState) (h : Inv s) : Inv (resolveHome fid res s) := by
  have h1 := h.1
  have h4 := h.2.2.2
  simp only [resolveHome]
  by_cases hmem : PendingFetch.homeFetch fid ∈ s.pending
  · rw [if_pos hmem]
    have hflag : s.renderInProgress = true := by
      cases hfb : s.renderInProgress
      · exfalso
        have hpos : 0 < homeFetchCount s :=
          List.countP_pos_iff.2 ⟨PendingFetch.homeFetch fid, hmem, rfl⟩
        rw [h1, hfb] at hpos
        simp at hpos
      · rfl
    have hc1 : homeFetchCount s ≤ 1 := by
      rw [h1]
      split <;> omega
    have hc0 : homeFetchCount
        { s with pending := s.pending.filter fun p => !decide (p = PendingFetch.homeFetch fid) }
        = 0 :=
      countP_remove_eq_zero isHomeFetch (PendingFetch.homeFetch fid) s.pending hmem rfl hc1
    have hT : homeTimers
        { s with pending := s.pending.filter fun p => !decide (p = PendingFetch.homeFetch fid) }
        = [] := h4 hflag
    exact inv_homeComplete res _ hc0 hT
  · rw [if_neg hmem]
    exact h

theorem inv_resolveDetail (fid : Nat) (res : Except String (Instance × Logs))
    (s : RouterState) (h : Inv s) : Inv (resolveDetail fid res s) := by
  have h1 := h.1
  have h2 := h.2.1
  have h3 := h.2.2.1
  have h4 := h.2.2.2
  unfold resolveDetail
  split
  · rename_i instId _
    apply inv_detailComplete
    refine ⟨?_, h2, h3, h4⟩
    show (s.pending.filter fun p => !pendingDetail fid p).countP isHomeFetch = _
    rw [List.countP_filter]
    have heq : (s.pending.countP fun a => isHomeFetch a && !pendingDetail fid a)
        = s.pending.countP isHomeFetch := by
      apply List.countP_congr
      intro p _
      cases p <;> simp [isHomeFetch, pendingDetail]
    rw [heq]
    exact h1
  · exact h

theorem inv_fireTimer (tid : Nat) (s : RouterState) (h : Inv s) :
    Inv (fireTimer tid s) := by
  have h1 := h.1
  have h2 := h.2.1
  have h3 := h.2.2.1
  have h4 := h.2.2.2
  unfold fireTimer
  split
  · exact h
  · rename_i t hfind
    have htmem : t ∈ s.liveTimers := List.mem_of_find?_eq_some hfind
    have httid : t.tid = tid := by
      have h5 := List.find?_some hfind
      simpa using h5
    have hsub : ∀ u ∈ s.liveTimers.filter (fun u => !(u.tid == tid)),
        u ∈ s.liveTimers ∧ u.tid ≠ tid := by
      intro u hu
      rw [List.mem_filter] at hu
      refine ⟨hu.1, ?_⟩
      have h6 := hu.2
      simpa using h6
    have hshrink : (s.liveTimers.filter fun u => !(u.tid == tid)).filter isHomeTimer
        = (s.liveTimers.filter isHomeTimer).filter fun u => !(u.tid == tid) := by
      rw [List.filter_filter, List.filter_filter]
      apply List.filter_congr
      intro u _
      rw [Bool.and_comm]
    have hInv1 : Inv { s with liveTimers := s.liveTimers.filter fun u => !(u.tid == tid) } := by
      refine ⟨h1, ?_, ?_, ?_⟩
      · show ((s.liveTimers.filter fun u => !(u.tid == tid)).filter isHomeTimer).length ≤ 1
        rw [hshrink]
        exact le_trans (List.length_filter_le _ _) h2
      · intro u hu hk
        exact h3 u (hsub u hu).1 hk
      · intro hfl
        show (s.liveTimers.filter fun u => !(u.tid == tid)).filter isHomeTimer = []
        have h4' : s.liveTimers.filter isHomeTimer = [] := h4 hfl
        rw [hshrink, h4']
        rfl
    split
    · -- the fired timer is the home timer: no home timer survives the removal
      rename_i hkind
      apply inv_homeStart _ hInv1
      left
      show (s.liveTimers.filter fun u => !(u.tid == tid)).filter isHomeTimer = []
      rw [hshrink]
      rw [List.filter_eq_nil_iff]
      intro u hu hne
      rw [List.mem_filter] at hu
      have hru : s.refreshTimeout = some u.tid :=
        h3 u hu.1 ((isHomeTimer_iff u).1 hu.2)
      have hrt : s.refreshTimeout = some tid := by
        rw [h3 t htmem hkind, httid]
      rw [hru] at hrt
      have : u.tid = tid := by
        injection hrt
      simp [this] at hne
    · rename_i instId hkind
      exact inv_detailStart instId _ hInv1

theorem inv_handleRoute (p : String) (s : RouterState) (h : Inv s) :
    Inv (handleRoute p s) := by
  have h' : Inv { s with currentRoute := p } := h
  obtain ⟨hc, hT⟩ := inv_cancel _ h'
  unfold handleRoute
  by_cases hp : p = "/" ∨ p = ""
  · rw [if_pos hp]
    exact inv_homeStart _ hc (Or.inl hT)
  · rw [if_neg hp]
    by_cases hsw : jsStartsWith p "/instance/" = true
    · rw [if_pos hsw]
      exact inv_detailStart _ _ hc
    · rw [if_neg hsw]
      exact inv_display _ _ hc

theorem inv_step (s : RouterState) (e : Event) (h : Inv s) : Inv (step s e) := by
  cases e with
  | nav p => exact inv_handleRoute p _ (inv_cancel s h).1
  | pop p => exact inv_handleRoute p s h
  | fire tid => exact inv_fireTimer tid s h
  | homeResult fid res => exact inv_resolveHome fid res s h
  | detailResult fid res => exact inv_resolveDetail fid res s h

theorem inv_foldl (evs : List Event) :
    ∀ (s : RouterState), Inv s → Inv (evs.foldl step s) := by
  induction evs with
  | nil => intro s h; exact h
  | cons e evs ih => intro s h; exact ih _ (inv_step s e h)

theorem inv_run (evs : List Event) : Inv (run evs) :=
  inv_foldl evs initState inv_init

theorem renderHomeComplete_flag (res : Except String (List Instance)) (s : RouterState) :
    (renderHomeComplete res s).renderInProgress = false := by
  cases res with
  | error e => rfl
  | ok instances =>
    simp only [renderHomeComplete]
    by_cases hroute : s.currentRoute ≠ "/" ∧ s.currentRoute ≠ ""
    · rw [if_pos hroute]
    · rw [if_neg hroute]
      by_cases hlen : instances.length = 0
      · rw [if_pos hlen]
      · rw [if_neg hlen]

/-- C1 (counterexample): navigating twice in a row to the same detail
path leaves two detail renders outstanding; both pass the post-fetch
route-match check, so both results reach the screen, and when the second
navigation's reads settle first the first navigation's stale result
overwrites the fresher render.  This refutes, for the detail view kind,
the claim that at most one outstanding render's result ever reaches the
screen. -/
theorem C1_counterexample :
    (run abaPre).pending
        = [PendingFetch.detailFetch 1 "a", PendingFetch.detailFetch 2 "a"] ∧
    (run (abaPre ++ [Event.detailResult 2 (Except.ok (instW2, logsEmpty))])).display
        = Display.detailView (mkDetailView instW2 logsEmpty) ∧
    (run abaTrace).display = Display.detailView (mkDetailView instW1 logsEmpty) ∧
    Display.detailView (mkDetailView instW1 logsEmpty)
        ≠ Display.detailView (mkDetailView instW2 logsEmpty) := by
  refine ⟨by decide, rfl, rfl, ?_⟩
  intro hcontra
  have hv : mkDetailView instW1 logsEmpty = mkDetailView instW2 logsEmpty := by
    injection hcontra
  have hw : (mkDetailView instW1 logsEmpty).workspace
      = (mkDetailView instW2 logsEmpty).workspace := congrArg DetailView.workspace hv
  have hw2 : "w1" = "w2" := hw
  exact absurd hw2 (by decide)

/-- C1 (amended): for the home view the re-entrancy flag keeps at most
one list fetch outstanding in every reachable state, so at most one
outstanding home render's result can ever reach the screen; and for both
views a successful result whose route no longer matches the current route
at resolution time is discarded: the display and the live timers are left
untouched.  (For the detail view, two outstanding renders for the
currently matching id can both reach the screen.) -/
theorem C1_amended (evs : List Event) (s : RouterState) (fid fid2 : Nat)
    (instId : String) (insts : List Instance) (pr : Instance × Logs) :
    homeFetchCount (run evs) ≤ 1 ∧
    (PendingFetch.homeFetch fid ∈ s.pending → s.currentRoute ≠ "/" → s.currentRoute ≠ "" →
      (resolveHome fid (Except.ok insts) s).display = s.display ∧
      (resolveHome fid (Except.ok insts) s).liveTimers = s.liveTimers ∧
      (resolveHome fid (Except.ok insts) s).refreshTimeout = s.refreshTimeout) ∧
    (s.pending.find? (pendingDetail fid2) = some (PendingFetch.detailFetch fid2 instId) →
      s.currentRoute ≠ "/instance/" ++ instId →
      (resolveDetail fid2 (Except.ok pr) s).display = s.display ∧
      (resolveDetail fid2 (Except.ok pr) s).liveTimers = s.liveTimers ∧
      (resolveDetail fid2 (Except.ok pr) s).detailRefreshTimeout = s.detailRefreshTimeout) := by
  refine ⟨?_, ?_, ?_⟩
  · have h1 := (inv_run evs).1
    rw [h1]
    split <;> omega
  · intro hmem hr1 hr2
    simp only [resolveHome, if_pos hmem, renderHomeComplete]
    rw [if_pos ⟨hr1, hr2⟩]
    exact ⟨rfl, rfl, rfl⟩
  · intro hfind hr
    simp only [resolveDetail]
    rw [hfind]
    obtain ⟨inst, logs⟩ := pr
    simp only [renderDetailComplete]
    rw [if_pos hr]
    exact ⟨rfl, rfl, rfl⟩

/-- C1 (witness): the amended statement instantiated on the reachable
state after `nav /`, `nav /instance/a`, `nav /zzz`, which has a home
fetch and a detail fetch outstanding and a route matching neither. -/
theorem C1_witness :
    homeFetchCount (run [Event.nav "/"]) ≤ 1 ∧
    (resolveHome 1 (Except.ok [])
        (run [Event.nav "/", Event.nav "/instance/a", Event.nav "/zzz"])).display
      = (run [Event.nav "/", Event.nav "/instance/a", Event.nav "/zzz"]).display ∧
    (resolveDetail 2 (Except.ok (instW1, logsEmpty))
        (run [Event.nav "/", Event.nav "/instance/a", Event.nav "/zzz"])).display
      = (run [Event.nav "/", Event.nav "/instance/a", Event.nav "/zzz"]).display := by
  refine ⟨(C1_amended [Event.nav "/"] initState 1 2 "a" [] (instW1, logsEmpty)).1, ?_, ?_⟩
  · exact ((C1_amended [Event.nav "/"]
      (run [Event.nav "/", Event.nav "/instance/a", Event.nav "/zzz"]) 1 2 "a" []
      (instW1, logsEmpty)).2.1 (by decide) (by decide) (by decide)).1
  · exact ((C1_amended [Event.nav "/"]
      (run [Event.nav "/", Event.nav "/instance/a", Event.nav "/zzz"]) 1 2 "a" []
      (instW1, logsEmpty)).2.2 (by decide) (by decide)).1

/-- C2: the claim says a failed launch surfaces the server-supplied
message when the error body contains one.  In `api.launchInstance` the
`throw` that carries the extracted message sits inside its own `try`
block, so the `catch` clause swallows it and rethrows the generic
status-code message: with status 400 and error body message `boom` the
surfaced error is the generic one, never `boom`.  The code contradicts
its own comment (`Try to extract error message from response`) and the
spec, which states the intended behaviour. -/
theorem C2_bug_eval :
    launchInstance ⟨false, 400, some ⟨some "boom", none⟩, ""⟩
        = Except.error "Failed to launch instance (400)" ∧
    launchInstance ⟨false, 400, some ⟨some "boom", none⟩, ""⟩
        ≠ Except.error "boom" := by
  refine ⟨rfl, ?_⟩
  intro h
  have h3 : Except.error (ε := String) (α := String) "Failed to launch instance (400)"
      = Except.error "boom" := h
  injection h3 with h4
  exact absurd h4 (by decide)

/-- C3 (counterexample): after two navigations to `/instance/a` and the
settlement of both outstanding read pairs, two detail refresh timers are
live at once — arming overwrites `detailRefreshTimeout` without clearing
the previously armed timer.  This refutes the per-view-kind at-most-one
live timer invariant for the detail kind. -/
theorem C3_counterexample :
    detailTimerCount (run abaTrace) = 2 ∧
    (run abaTrace).liveTimers
      = [(⟨3, TimerKind.detail "a"⟩ : Timer), (⟨4, TimerKind.detail "a"⟩ : Timer)] :=
  ⟨rfl, rfl⟩

/-- C3 (amended): the at-most-one-live-timer invariant holds for the home
view kind in every reachable state: the home timer is armed only by a
home render completion, which can only run while the re-entrancy flag is
set, and the flag excludes a live home timer.  (The detail kind violates
the invariant, see the counterexample.) -/
theorem C3_amended (evs : List Event) : (homeTimers (run evs)).length ≤ 1 :=
  (inv_run evs).2.1

/-- C4: invoking the home render while a home render is already in
progress is a no-op — the state is returned unchanged, so the firing is
dropped, not queued — and in every reachable state the number of home
list fetches in flight is one exactly while the flag is set, and never
exceeds one. -/
theorem C4_reentrancy (evs : List Event) (s : RouterState) :
    (s.renderInProgress = true → renderHomeStart s = s) ∧
    ((run evs).renderInProgress = true → homeFetchCount (run evs) = 1) ∧
    homeFetchCount (run evs) ≤ 1 := by
  refine ⟨?_, ?_, ?_⟩
  · intro h
    simp [renderHomeStart, h]
  · intro h
    have h1 := (inv_run evs).1
    rw [h, if_pos rfl] at h1
    exact h1
  · have h1 := (inv_run evs).1
    rw [h1]
    split <;> omega

/-- C4 (witness): after `nav /` a home render is in progress; a further
home render invocation returns the state unchanged and exactly one home
fetch is in flight. -/
theorem C4_witness :
    renderHomeStart (run [Event.nav "/"]) = run [Event.nav "/"] ∧
    homeFetchCount (run [Event.nav "/"]) = 1 :=
  ⟨(C4_reentrancy [Event.nav "/"] (run [Event.nav "/"])).1 (by decide),
   (C4_reentrancy [Event.nav "/"] (run [Event.nav "/"])).2.1 (by decide)⟩

/-- C5: the home render-in-progress flag is set (and the fetch issued)
by the start segment when no render is in progress, and the completion
segment — covering the successful render, the route-mismatch abort and
the error path, for any outcome and any current route — always leaves the
flag cleared. -/
theorem C5_flag_discipline (s : RouterState) (fid : Nat)
    (res : Except String (List Instance)) :
    (s.renderInProgress = false →
      (renderHomeStart s).renderInProgress = true ∧
      (renderHomeStart s).pending = s.pending ++ [PendingFetch.homeFetch s.nextId]) ∧
    (PendingFetch.homeFetch fid ∈ s.pending →
      (resolveHome fid res s).renderInProgress = false) := by
  constructor
  · intro h
    simp [renderHomeStart, h]
  · intro hmem
    simp only [resolveHome, if_pos hmem]
    exact renderHomeComplete_flag res _

/-- C5 (witness): the start segment sets the flag from the initial state,
and resolving the outstanding fetch of the state after `nav /` clears
it. -/
theorem C5_witness :
    ((renderHomeStart initState).renderInProgress = true ∧
      (renderHomeStart initState).pending
        = initState.pending ++ [PendingFetch.homeFetch initState.nextId]) ∧
    (resolveHome 1 (Except.ok []) (run [Event.nav "/"])).renderInProgress = false :=
  ⟨(C5_flag_discipline initState 1 (Except.ok [])).1 rfl,
   (C5_flag_discipline (run [Event.nav "/"]) 1 (Except.ok [])).2 (by decide)⟩

/-- C6: when a pending home list fetch fails, the home render writes the
error message carrying the failure description into the mount point and
arms no timer (live timers and both handle fields are unchanged); the
detail render behaves the same on a failed read. -/
theorem C6_failure_renders_error (s : RouterState) (fid fid2 : Nat)
    (e e2 : String) (instId : String) :
    (PendingFetch.homeFetch fid ∈ s.pending →
      (resolveHome fid (Except.error e) s).display
          = Display.errorMsg ("Failed to load instances: " ++ e) ∧
      (resolveHome fid (Except.error e) s).liveTimers = s.liveTimers ∧
      (resolveHome fid (Except.error e) s).refreshTimeout = s.refreshTimeout ∧
      (resolveHome fid (Except.error e) s).detailRefreshTimeout = s.detailRefreshTimeout) ∧
    (s.pending.find? (pendingDetail fid2) = some (PendingFetch.detailFetch fid2 instId) →
      (resolveDetail fid2 (Except.error e2) s).display
          = Display.errorMsg ("Failed to load instance: " ++ e2) ∧
      (resolveDetail fid2 (Except.error e2) s).liveTimers = s.liveTimers ∧
      (resolveDetail fid2 (Except.error e2) s).refreshTimeout = s.refreshTimeout ∧
      (resolveDetail fid2 (Except.error e2) s).detailRefreshTimeout = s.detailRefreshTimeout) := by
  constructor
  · intro hmem
    simp only [resolveHome, if_pos hmem]
    exact ⟨rfl, rfl, rfl, rfl⟩
  · intro hfind
    simp only [resolveDetail]
    rw [hfind]
    exact ⟨rfl, rfl, rfl, rfl⟩

/-- C6 (witness): the failure paths evaluated on the reachable state
after `nav /`, `nav /instance/a`, which has one fetch of each kind
outstanding. -/
theorem C6_witness :
    (resolveHome 1 (Except.error "boom")
        (run [Event.nav "/", Event.nav "/instance/a"])).display
      = Display.errorMsg ("Failed to load instances: " ++ "boom") ∧
    (resolveDetail 2 (Except.error "boom2")
        (run [Event.nav "/", Event.nav "/instance/a"])).display
      = Display.errorMsg ("Failed to load instance: " ++ "boom2") :=
  ⟨((C6_failure_renders_error (run [Event.nav "/", Event.nav "/instance/a"])
      1 2 "boom" "boom2" "a").1 (by decide)).1,
   ((C6_failure_renders_error (run [Event.nav "/", Event.nav "/instance/a"])
      1 2 "boom" "boom2" "a").2 (by decide)).1⟩

/-- C7: when the pending list fetch resolves with an empty list while the
route is still home, the empty-state message is rendered (so no summary
panels), and a home refresh timer is still armed with its handle stored
in `refreshTimeout`. -/
theorem C7_empty_state (s : RouterState) (fid : Nat)
    (hmem : PendingFetch.homeFetch fid ∈ s.pending)
    (hroute : s.currentRoute = "/" ∨ s.currentRoute = "") :
    (resolveHome fid (Except.ok []) s).display
        = Display.emptyState "No running instances. Click \"+ New Run\" to start one." ∧
    (resolveHome fid (Except.ok []) s).liveTimers
        = s.liveTimers ++ [(⟨s.nextId, TimerKind.home⟩ : Timer)] ∧
    (resolveHome fid (Except.ok []) s).refreshTimeout = some s.nextId := by
  simp only [resolveHome, if_pos hmem, renderHomeComplete]
  rw [if_neg (by rcases hroute with h | h <;> simp [h])]
  rw [if_pos (by rfl : ([] : List Instance).length = 0)]
  simp only [armIfHome]
  rw [if_pos hroute]
  exact ⟨rfl, rfl, rfl⟩

/-- C7 (witness): the empty-list settlement evaluated on the reachable
state after `nav /`. -/
theorem C7_witness :
    (resolveHome 1 (Except.ok []) (run [Event.nav "/"])).display
        = Display.emptyState "No running instances. Click \"+ New Run\" to start one." ∧
    (resolveHome 1 (Except.ok []) (run [Event.nav "/"])).refreshTimeout
        = some (run [Event.nav "/"]).nextId :=
  ⟨(C7_empty_state (run [Event.nav "/"]) 1 (by decide) (by decide)).1,
   (C7_empty_state (run [Event.nav "/"]) 1 (by decide) (by decide)).2.2⟩

/-- C8 (counterexample): the path `/instance/a/b` is not of the form
`/instance/<id>` — it has an extra segment — yet the router resolves it
to the detail view for id `a` (the third `/`-separated segment) instead
of rendering the not-found message, because the detail branch tests only
`startsWith('/instance/')`.  This refutes the claim that exactly paths of
the form `/instance/<id>` resolve to Detail(id). -/
theorem C8_counterexample :
    (run [Event.nav "/instance/a/b"]).currentInstanceId = some "a" ∧
    (run [Event.nav "/instance/a/b"]).pending = [PendingFetch.detailFetch 1 "a"] ∧
    (run [Event.nav "/instance/a/b"]).display
        = Display.spinner "Loading instance details..." ∧
    "a" ≠ "a/b" := by
  decide

/-- C8 (amended): the router resolves `/` and the empty path to the home
render; every path starting with `/instance/` — including ones with
further segments — to the detail render for the third `/`-separated
segment; any other path to the not-found message with the handle fields
nulled, no fetch issued and no new timer armed; and from a state with no
outstanding fetches and no live timers, timer firings and fetch
settlements are no-ops, so only a new navigation changes the state. -/
theorem C8_amended (s : RouterState) (p : String) (tid fid fid2 : Nat)
    (r : Except String (List Instance)) (r2 : Except String (Instance × Logs)) :
    (p = "/" ∨ p = "" →
      (handleRoute p s).currentRoute = p ∧
      (s.renderInProgress = false →
        (handleRoute p s).pending = s.pending ++ [PendingFetch.homeFetch s.nextId] ∧
        (handleRoute p s).display = Display.spinner "Loading instances...")) ∧
    (¬(p = "/" ∨ p = "") → jsStartsWith p "/instance/" = true →
      (handleRoute p s).currentRoute = p ∧
      (handleRoute p s).currentInstanceId = some ((jsSplit '/' p).getD 2 "") ∧
      (handleRoute p s).pending
        = s.pending ++ [PendingFetch.detailFetch s.nextId ((jsSplit '/' p).getD 2 "")] ∧
      (handleRoute p s).display = Display.spinner "Loading instance details...") ∧
    (¬(p = "/" ∨ p = "") → jsStartsWith p "/instance/" = false →
      (handleRoute p s).display = Display.errorMsg "Page not found" ∧
      (handleRoute p s).pending = s.pending ∧
      (handleRoute p s).refreshTimeout = none ∧
      (handleRoute p s).detailRefreshTimeout = none ∧
      ∀ t ∈ (handleRoute p s).liveTimers, t ∈ s.liveTimers) ∧
    (s.pending = [] → s.liveTimers = [] →
      fireTimer tid s = s ∧ resolveHome fid r s = s ∧ resolveDetail fid2 r2 s = s) := by
  refine ⟨?_, ?_, ?_, ?_⟩
  · intro hp
    simp only [handleRoute, if_pos hp, renderHomeStart, cancelRefreshes]
    constructor
    · split <;> rfl
    · intro hf
      rw [if_neg (by simp [hf])]
      exact ⟨rfl, rfl⟩
  · intro hp hsw
    simp only [handleRoute, if_neg hp, if_pos hsw, renderDetailStart, cancelRefreshes]
    refine ⟨?_, ?_, ?_, ?_⟩ <;> trivial
  · intro hp hsw
    simp only [handleRoute, if_neg hp, cancelRefreshes]
    rw [if_neg (by simp [hsw])]
    refine ⟨?_, ?_, ?_, ?_, ?_⟩
    · trivial
    · trivial
    · trivial
    · trivial
    · intro t ht
      exact (List.mem_filter.mp ht).1
  · intro hpend hlive
    refine ⟨?_, ?_, ?_⟩
    · have hfind : s.liveTimers.find? (fun t => t.tid == tid) = none := by
        rw [hlive]
        rfl
      simp only [fireTimer, hfind]
    · have hmem : PendingFetch.homeFetch fid ∉ s.pending := by
        rw [hpend]
        exact List.not_mem_nil _
      simp only [resolveHome, if_neg hmem]
    · have hfind : s.pending.find? (pendingDetail fid2) = none := by
        rw [hpend]
        rfl
      simp only [resolveDetail, hfind]

/-- C8 (witness): the four clauses instantiated on concrete paths and the
initial state (which has no outstanding fetches and no live timers). -/
theorem C8_witness :
    (handleRoute "/" initState).pending
        = initState.pending ++ [PendingFetch.homeFetch initState.nextId] ∧
    (handleRoute "/instance/xyz" initState).currentInstanceId = some "xyz" ∧
    (handleRoute "/nope" initState).display = Display.errorMsg "Page not found" ∧
    fireTimer 5 initState = initState := by
  refine ⟨?_, ?_, ?_, ?_⟩
  · exact (((C8_amended initState "/" 5 1 2 (Except.ok [])
      (Except.ok (instW1, logsEmpty))).1 (Or.inl rfl)).2 rfl).1
  · exact ((C8_amended initState "/instance/xyz" 5 1 2 (Except.ok [])
      (Except.ok (instW1, logsEmpty))).2.1 (by decide) (by decide)).2.1
  · exact ((C8_amended initState "/nope" 5 1 2 (Except.ok [])
      (Except.ok (instW1, logsEmpty))).2.2.1 (by decide) (by decide)).1
  · exact ((C8_amended initState "/nope" 5 1 2 (Except.ok [])
      (Except.ok (instW1, logsEmpty))).2.2.2 rfl rfl).1

/-- C9: in the detail view's stats panel a duration of 125 seconds is
displayed as 2 (duration divided by 60 and rounded by `Math.round`), and
a token count of 1234567 is displayed with locale thousands separators as
`1,234,567` (via `toLocaleString`). -/
theorem C9_detail_stats (inst : Instance) (logs : Logs) (st : Stats)
    (hst : inst.stats = some st) (hdur : st.duration_secs = some 125)
    (htok : st.total_tokens = some 1234567) :
    (mkDetailView inst logs).durationMinutes = 2 ∧
    (mkDetailView inst logs).tokensDisplay = "1,234,567" := by
  constructor
  · show jsRound (jsOrZeroQ (inst.stats.bind Stats.duration_secs) / 60) = 2
    rw [hst]
    show jsRound (jsOrZeroQ st.duration_secs / 60) = 2
    rw [hdur]
    show Int.floor ((125 : Rat) / 60 + 1 / 2) = 2
    norm_num
  · show toLocaleString (jsOrZeroI (inst.stats.bind Stats.total_tokens)) = "1,234,567"
    rw [hst]
    show toLocaleString (jsOrZeroI st.total_tokens) = "1,234,567"
    rw [htok]
    decide

/-- C9 (witness): the stat rendering evaluated on a concrete instance
with duration 125 and token count 1234567. -/
theorem C9_witness :
    (mkDetailView instC9 logsEmpty).durationMinutes = 2 ∧
    (mkDetailView instC9 logsEmpty).tokensDisplay = "1,234,567" :=
  C9_detail_stats instC9 logsEmpty ⟨some 1234567, none, none, some 125⟩ rfl rfl rfl

/-- C10 (counterexample): for an instance whose stats record is present
but lacks `total_tokens`, the home render does not substitute zero — the
panel receives the stats object with the field still absent, because the
`instance.stats || {...}` default fires only when the whole record is
missing — while the detail render does substitute zero for the same
instance.  This refutes the claim that both renders substitute zero for
individually missing stat fields. -/
theorem C10_counterexample :
    (mkPanel instNoTokens).stats.total_tokens = none ∧
    (mkPanel instNoTokens).stats.total_tokens ≠ some 0 ∧
    (mkDetailView instNoTokens logsEmpty).tokensDisplay = "0" := by
  refine ⟨rfl, by decide, rfl⟩

/-- C10 (amended): when the stats record is absent altogether the home
render substitutes the all-zero default record; when it is present the
home render forwards it unchanged to the panel, individually missing
fields included; the detail render substitutes zero for each
individually missing stat field; and both renders are total functions of
their inputs, so neither throws. -/
theorem C10_amended (inst : Instance) (logs : Logs) (st : Stats) :
    (inst.stats = none → (mkPanel inst).stats = defaultStats) ∧
    (inst.stats = some st → (mkPanel inst).stats = st) ∧
    (inst.stats.bind Stats.total_tokens = none →
      (mkDetailView inst logs).tokensDisplay = "0") ∧
    (inst.stats.bind Stats.tool_calls = none →
      (mkDetailView inst logs).toolCallsVal = 0) ∧
    (inst.stats.bind Stats.errors = none →
      (mkDetailView inst logs).errorsVal = 0) ∧
    (inst.stats.bind Stats.duration_secs = none →
      (mkDetailView inst logs).durationMinutes = 0) := by
  refine ⟨?_, ?_, ?_, ?_, ?_, ?_⟩
  · intro h
    show inst.stats.getD defaultStats = defaultStats
    rw [h]
    rfl
  · intro h
    show inst.stats.getD defaultStats = st
    rw [h]
    rfl
  · intro h
    show toLocaleString (jsOrZeroI (inst.stats.bind Stats.total_tokens)) = "0"
    rw [h]
    rfl
  · intro h
    show jsOrZeroI (inst.stats.bind Stats.tool_calls) = 0
    rw [h]
    rfl
  · intro h
    show jsOrZeroI (inst.stats.bind Stats.errors) = 0
    rw [h]
    rfl
  · intro h
    show jsRound (jsOrZeroQ (inst.stats.bind Stats.duration_secs) / 60) = 0
    rw [h]
    show Int.floor ((0 : Rat) / 60 + 1 / 2) = 0
    norm_num

/-- C10 (witness): the substitution behaviour evaluated on an instance
with no stats record and on one lacking only `total_tokens`. -/
theorem C10_witness :
    (mkPanel instNoStats).stats = defaultStats ∧
    (mkDetailView instNoTokens logsEmpty).tokensDisplay = "0" :=
  ⟨(C10_amended instNoStats logsEmpty defaultStats).1 rfl,
   (C10_amended instNoTokens logsEmpty statsNoTokens).2.2.1 rfl⟩

end G3Console
